import Mathlib

/-
  Shallow embedding of src/API/prediction.py (Smart Glasses Demand Prediction API).

  Machine integers are modelled as ℤ/ℕ; Python floats are modelled as exact
  rationals ℚ.  Python round (single argument and with a digit count) uses
  round-half-to-even, embedded below as pyRound / pyRoundTo.  The loaded
  model+scaler pipeline (joblib artifacts, scaler.transform, model.predict)
  is an external artifact: it is abstracted as an optional function from the
  assembled feature row to a raw continuous output (or an error, standing for
  a raised exception in the library call).  Everything downstream of that
  call — feature engineering, rounding, clamping, confidence, interpretation,
  endpoints, batching, validation — is embedded faithfully from the source.
-/

namespace SmartGlasses

/-- Python round: round half to even (banker's rounding), on exact rationals. -/
def pyRound (r : ℚ) : ℤ :=
  let f : ℤ := ⌊r⌋
  if r - f < 1/2 then f
  else if 1/2 < r - f then f + 1
  else if f % 2 = 0 then f else f + 1

/-- Python round(x, d): round to d decimal digits, half to even. -/
def pyRoundTo (d : ℕ) (x : ℚ) : ℚ :=
  (pyRound (10 ^ d * x) : ℚ) / 10 ^ d

/-- The six binary questionnaire flags (the features dict of the source),
each ∈ {0,1}, modelled as Fin 2. -/
structure TrainingProfile where
  cognition : Fin 2
  communication : Fin 2
  hearing : Fin 2
  mobility : Fin 2
  self_care : Fin 2
  vision : Fin 2
deriving DecidableEq, Fintype, Repr

/-- sum(features.values()) -/
def sumFlags (p : TrainingProfile) : ℕ :=
  p.cognition.val + p.communication.val + p.hearing.val +
    p.mobility.val + p.self_care.val + p.vision.val

/-- Demo-mode score (line 145): min(3, max(1, 1 + total_score // 2)). -/
def demo_score (p : TrainingProfile) : ℤ :=
  min 3 (max 1 (1 + (sumFlags p : ℤ) / 2))

/-- Engineered features (lines 150-152). -/
structure EngineeredFeatures where
  total_training_score : ℕ
  vision_mobility_score : ℕ
  assistive_tech_readiness : ℚ
deriving DecidableEq, Repr

def engineerFeatures (p : TrainingProfile) : EngineeredFeatures :=
  { total_training_score := sumFlags p
    vision_mobility_score := p.vision.val + p.mobility.val
    assistive_tech_readiness := ((sumFlags p : ℚ) / 6) * 100 }

/-- The feature_data dict assembled for the model (lines 155-165). -/
def featureRow (p : TrainingProfile) : List (String × ℚ) :=
  [("Training related to Cognition", (p.cognition.val : ℚ)),
   ("Training related to Communication", (p.communication.val : ℚ)),
   ("Training related to Hearing", (p.hearing.val : ℚ)),
   ("Training related to Mobility", (p.mobility.val : ℚ)),
   ("Training related to Self-care", (p.self_care.val : ℚ)),
   ("Training related to Vision", (p.vision.val : ℚ)),
   ("total_training_score", ((engineerFeatures p).total_training_score : ℚ)),
   ("vision_mobility_score", ((engineerFeatures p).vision_mobility_score : ℚ)),
   ("assistive_tech_readiness", (engineerFeatures p).assistive_tech_readiness)]

/-- The loaded model+scaler pipeline: absent (demo mode) or a function from
the assembled feature row to the raw continuous prediction; Except.error
stands for an exception raised inside feature reordering / transform /
predict. -/
def ModelState : Type := Option (List (String × ℚ) → Except String ℚ)

/-- Rounded-and-clamped score (line 188): max(1, min(3, round(prediction))). -/
def modelScore (r : ℚ) : ℤ :=
  max 1 (min 3 (pyRound r))

/-- Confidence (line 189): min(0.95, max(0.60, 1 - abs(prediction - demand_score))),
computed with the clamped demand_score. -/
def modelConfidence (r : ℚ) : ℚ :=
  min 0.95 (max 0.60 (1 - |r - (modelScore r : ℚ)|))

/-- predict_smart_glasses_demand (lines 135-197): returns (demand_score, confidence),
or an error when the model call raises (re-raised as a 500 detail string). -/
def predict_smart_glasses_demand (st : ModelState) (features : TrainingProfile) :
    Except String (ℤ × ℚ) :=
  match st with
  | none => Except.ok (demo_score features, 0.75)
  | some mf =>
    match mf (featureRow features) with
    | Except.ok r => Except.ok (modelScore r, modelConfidence r)
    | Except.error e => Except.error ("Prediction error: " ++ e)

/-- get_demand_interpretation (lines 126-133). -/
def get_demand_interpretation (score : ℤ) : String × String :=
  if score = 1 then
    ("Low", "Market shows low demand. Focus on awareness and education programs.")
  else if score = 2 then
    ("Medium", "Moderate demand expected. Consider targeted marketing and partnerships.")
  else
    ("High", "High demand potential! Prioritize manufacturing and distribution in this region.")

/-- The all-ones test input used by /health (lines 220-223). -/
def allOnes : TrainingProfile :=
  ⟨1, 1, 1, 1, 1, 1⟩

/-- The all-zero input. -/
def allZeros : TrainingProfile :=
  ⟨0, 0, 0, 0, 0, 0⟩

/-- input_summary built by /predict (lines 263-268). -/
structure InputSummary where
  total_training_areas : ℕ
  vision_training_available : Bool
  mobility_training_available : Bool
  training_coverage_percentage : ℚ
deriving DecidableEq, Repr

def input_summary (p : TrainingProfile) : InputSummary :=
  { total_training_areas := sumFlags p
    vision_training_available := p.vision.val != 0
    mobility_training_available := p.mobility.val != 0
    training_coverage_percentage := pyRoundTo 1 (((sumFlags p : ℚ) / 6) * 100) }

/-- The /predict response body (PredictionResponse, lines 119-124). -/
structure PredictionResponse where
  demand_score : ℤ
  demand_level : String
  confidence : ℚ
  input_summary : InputSummary
  recommendations : String
deriving DecidableEq, Repr

/-- The /predict handler predict_demand (lines 243-285) after request
validation; Except.error carries a 500-class detail. -/
def predict_demand (st : ModelState) (req : TrainingProfile) :
    Except String PredictionResponse :=
  match predict_smart_glasses_demand st req with
  | Except.error e => Except.error e
  | Except.ok sc =>
    let lvl := get_demand_interpretation sc.1
    Except.ok
      { demand_score := sc.1
        demand_level := lvl.1
        confidence := pyRoundTo 3 sc.2
        input_summary := input_summary req
        recommendations := lvl.2 }

/-- A raw, not yet validated /predict body: each of the six fields either
absent or an arbitrary integer. -/
structure RawRequest where
  cognition : Option ℤ
  communication : Option ℤ
  hearing : Option ℤ
  mobility : Option ℤ
  self_care : Option ℤ
  vision : Option ℤ
deriving DecidableEq, Repr

/-- One pydantic field check (Field ge=0 le=1 plus validate_binary_values,
lines 92-104): present and ∈ {0,1}. -/
def validBinary : Option ℤ → Bool
  | some 0 => true
  | some 1 => true
  | _ => false

/-- Interpret a validated field as a flag (only used when validBinary holds). -/
def toFlag : Option ℤ → Fin 2
  | some 1 => 1
  | _ => 0

/-- Framework-level request validation: a PredictionRequest parses iff every
field is present and binary; otherwise the request is rejected before the
handler runs. -/
def validateRequest (r : RawRequest) : Option TrainingProfile :=
  if validBinary r.cognition && validBinary r.communication && validBinary r.hearing &&
      validBinary r.mobility && validBinary r.self_care && validBinary r.vision then
    some ⟨toFlag r.cognition, toFlag r.communication, toFlag r.hearing,
          toFlag r.mobility, toFlag r.self_care, toFlag r.vision⟩
  else none

/-- The fixed 422 body of validation_exception_handler (lines 380-389). -/
def validationErrorDetail : String :=
  "Validation Error: All fields must be integers: 0 or 1"

/-- /predict as seen from the wire: validation first, the handler only on
success. -/
def predict_endpoint (st : ModelState) (raw : RawRequest) :
    Except String PredictionResponse :=
  match validateRequest raw with
  | none => Except.error validationErrorDetail
  | some req => predict_demand st req

/-- One entry of batch_results (lines 310-321): a result or an error,
tagged with its input index. -/
inductive BatchEntry where
  | ok (index : ℕ) (demand_score : ℤ) (demand_level : String) (confidence : ℚ)
  | err (index : ℕ) (error : String)
deriving DecidableEq, Repr

/-- One loop iteration of predict_batch (lines 296-321). -/
def batchItem (st : ModelState) (i : ℕ) (req : TrainingProfile) : BatchEntry :=
  match predict_smart_glasses_demand st req with
  | Except.ok sc =>
    BatchEntry.ok i sc.1 (get_demand_interpretation sc.1).1 (pyRoundTo 3 sc.2)
  | Except.error e => BatchEntry.err i ("Prediction failed: " ++ e)

/-- predict_batch (lines 287-323): reject batches over 50 items with a
400-class error, otherwise one entry per input index in input order. -/
def predict_batch (st : ModelState) (reqs : List TrainingProfile) :
    Except String (List BatchEntry) :=
  if reqs.length > 50 then Except.error "Batch size cannot exceed 50 requests"
  else Except.ok (reqs.enum.map (fun ir => batchItem st ir.1 ir.2))

/-- The /health response (lines 226-241): the healthy shape with its
demo_mode flag and self-test result, or the unhealthy shape carrying the
caught error. -/
inductive HealthResponse where
  | healthy (model_loaded : Bool) (demo_mode : Bool)
      (test_demand_score : ℤ) (test_confidence : ℚ)
  | unhealthy (error : String)
deriving DecidableEq, Repr

/-- health_check (lines 216-241): one self-test prediction on the all-ones
input; any raised error is caught and reported, never propagated. -/
def health_check (st : ModelState) : HealthResponse :=
  match predict_smart_glasses_demand st allOnes with
  | Except.ok sc =>
    HealthResponse.healthy st.isSome st.isNone sc.1 (pyRoundTo 3 sc.2)
  | Except.error e => HealthResponse.unhealthy e

/-- Pointwise order on the six flags. -/
def flagsLE (p q : TrainingProfile) : Prop :=
  p.cognition ≤ q.cognition ∧ p.communication ≤ q.communication ∧
    p.hearing ≤ q.hearing ∧ p.mobility ≤ q.mobility ∧
    p.self_care ≤ q.self_care ∧ p.vision ≤ q.vision

instance (p q : TrainingProfile) : Decidable (flagsLE p q) := by
  unfold flagsLE; infer_instance

/-- A raw body whose cognition field is 2 (out of range), all others 1. -/
def bad_request : RawRequest :=
  ⟨some 2, some 1, some 1, some 1, some 1, some 1⟩

/-- A loaded-model state whose pipeline always returns the raw output 2. -/
def constModel : ModelState :=
  some (fun _ => Except.ok 2)

/-- The concrete /predict response for the all-ones input in fallback mode. -/
def sample_response : PredictionResponse :=
  { demand_score := 3
    demand_level := "High"
    confidence := 0.75
    input_summary :=
      { total_training_areas := 6
        vision_training_available := true
        mobility_training_available := true
        training_coverage_percentage := 100 }
    recommendations := "High demand potential! Prioritize manufacturing and distribution in this region." }

/-- Claim C1, counterexample: at the raw output r = 0 the code returns
confidence 0.60, while clamp(1 - abs(r - round r), 0.60, 0.95) with the
unclamped round r would be 0.95: the claimed formula does not match the
code, which uses the clamped demand score in place of round r. -/
theorem C1_counterexample :
    modelConfidence 0 = 0.60 ∧
    min 0.95 (max 0.60 (1 - |(0 : ℚ) - (pyRound 0 : ℚ)|)) = 0.95 ∧
    modelConfidence 0 ≠ min 0.95 (max 0.60 (1 - |(0 : ℚ) - (pyRound 0 : ℚ)|)) := by
  have h0 : pyRound 0 = 0 := by norm_num [pyRound]
  have hs : modelScore 0 = 1 := by norm_num [modelScore, h0]
  have h1 : modelConfidence 0 = 0.60 := by
    rw [modelConfidence, hs]
    norm_num
  have h2 : min 0.95 (max 0.60 (1 - |(0 : ℚ) - (pyRound 0 : ℚ)|)) = 0.95 := by
    rw [h0]
    norm_num
  refine ⟨h1, h2, ?_⟩
  rw [h1, h2]
  norm_num

/-- Claim C1 (amended): in model mode the returned confidence equals
clamp(1 - abs(r - s), 0.60, 0.95) where s = clamp(round r, 1, 3) is the
returned demand score; whenever round r already lies in [1,3] this agrees
with the claimed clamp(1 - abs(r - round r), 0.60, 0.95); and for every
raw output the confidence lies in [0.60, 0.95]. -/
theorem C1_model_confidence (r : ℚ) (h1 : 1 ≤ pyRound r) (h2 : pyRound r ≤ 3) :
    modelConfidence r = min 0.95 (max 0.60 (1 - |r - (pyRound r : ℚ)|)) ∧
    (∀ s : ℚ, modelConfidence s = min 0.95 (max 0.60 (1 - |s - (modelScore s : ℚ)|)) ∧
      0.60 ≤ modelConfidence s ∧ modelConfidence s ≤ 0.95) := by
  constructor
  · have hms : modelScore r = pyRound r := by
      unfold modelScore; omega
    rw [modelConfidence, hms]
  · intro s
    refine ⟨rfl, ?_, ?_⟩
    · exact le_min (by norm_num) (le_max_left _ _)
    · exact min_le_left _ _

theorem C1_witness :
    modelConfidence (5/2) =
      min 0.95 (max 0.60 (1 - |(5/2 : ℚ) - (pyRound (5/2) : ℚ)|)) :=
  (C1_model_confidence (5/2) (by norm_num [pyRound]) (by norm_num [pyRound])).1

/-- Claim C2: in fallback mode every six-flag input yields
demand_score = clamp(1 + floor(sum/2), 1, 3) and confidence exactly 0.75,
with the exact score table 0,1 -> 1; 2,3 -> 2; 4,5,6 -> 3. -/
theorem C2_fallback_formula (p : TrainingProfile) :
    predict_smart_glasses_demand none p =
      Except.ok (min 3 (max 1 (1 + (sumFlags p : ℤ) / 2)), 0.75) ∧
    (sumFlags p = 0 → demo_score p = 1) ∧
    (sumFlags p = 1 → demo_score p = 1) ∧
    (sumFlags p = 2 → demo_score p = 2) ∧
    (sumFlags p = 3 → demo_score p = 2) ∧
    (sumFlags p = 4 → demo_score p = 3) ∧
    (sumFlags p = 5 → demo_score p = 3) ∧
    (sumFlags p = 6 → demo_score p = 3) := by
  refine ⟨rfl, ?_, ?_, ?_, ?_, ?_, ?_, ?_⟩ <;>
    (intro h; unfold demo_score; omega)

theorem C2_witness : demo_score allOnes = 3 :=
  (C2_fallback_formula allOnes).2.2.2.2.2.2.2 (by decide)

/-- Claim C3: in both modes every successfully returned demand_score is in
the set 1, 2, 3, and the demand level and recommendation are the fixed pure
lookup of the score alone: 1 -> Low, 2 -> Medium, 3 -> High, each with its
one fixed recommendation string. -/
theorem C3_score_range_and_lookup :
    (∀ (st : ModelState) (p : TrainingProfile) (s : ℤ) (c : ℚ),
        predict_smart_glasses_demand st p = Except.ok (s, c) →
        s = 1 ∨ s = 2 ∨ s = 3) ∧
    get_demand_interpretation 1 =
      ("Low", "Market shows low demand. Focus on awareness and education programs.") ∧
    get_demand_interpretation 2 =
      ("Medium", "Moderate demand expected. Consider targeted marketing and partnerships.") ∧
    get_demand_interpretation 3 =
      ("High", "High demand potential! Prioritize manufacturing and distribution in this region.") := by
  refine ⟨?_, rfl, rfl, rfl⟩
  intro st p s c h
  match st with
  | none =>
    simp only [predict_smart_glasses_demand, Except.ok.injEq, Prod.mk.injEq] at h
    have hs := h.1
    unfold demo_score at hs
    omega
  | some mf =>
    simp only [predict_smart_glasses_demand] at h
    cases hmf : mf (featureRow p) with
    | ok r =>
      rw [hmf] at h
      simp only [Except.ok.injEq, Prod.mk.injEq] at h
      have hs := h.1
      unfold modelScore at hs
      omega
    | error e =>
      rw [hmf] at h
      simp at h

theorem C3_witness : (3 : ℤ) = 1 ∨ (3 : ℤ) = 2 ∨ (3 : ℤ) = 3 :=
  C3_score_range_and_lookup.1 none allOnes 3 0.75 rfl

/-- Claim C5: the engineered features satisfy
total_training_score = sum of the six flags (at most 6),
vision_mobility_score = vision + mobility (at most 2), and
assistive_tech_readiness = total/6 * 100, which lies in [0, 100]. -/
theorem C5_engineered_features (p : TrainingProfile) :
    (engineerFeatures p).total_training_score = sumFlags p ∧
    sumFlags p ≤ 6 ∧
    (engineerFeatures p).vision_mobility_score = p.vision.val + p.mobility.val ∧
    p.vision.val + p.mobility.val ≤ 2 ∧
    (engineerFeatures p).assistive_tech_readiness = ((sumFlags p : ℚ) / 6) * 100 ∧
    0 ≤ (engineerFeatures p).assistive_tech_readiness ∧
    (engineerFeatures p).assistive_tech_readiness ≤ 100 := by
  have hc := p.cognition.is_le
  have hm := p.communication.is_le
  have hh := p.hearing.is_le
  have hb := p.mobility.is_le
  have hs := p.self_care.is_le
  have hv := p.vision.is_le
  have h6 : sumFlags p ≤ 6 := by unfold sumFlags; omega
  refine ⟨rfl, h6, rfl, by omega, rfl, ?_, ?_⟩
  · show (0 : ℚ) ≤ ((sumFlags p : ℚ) / 6) * 100
    positivity
  · show ((sumFlags p : ℚ) / 6) * 100 ≤ 100
    have h6q : (sumFlags p : ℚ) ≤ 6 := by exact_mod_cast h6
    rw [div_mul_eq_mul_div, div_le_iff₀ (by norm_num : (0:ℚ) < 6)]
    linarith

/-- Claim C9: the demand-interpretation lookup is total over the integers:
every score other than 1 and 2 falls into the catch-all else branch and
yields the High level with the High recommendation. -/
theorem C9_interpretation_catch_all (s : ℤ) (h1 : s ≠ 1) (h2 : s ≠ 2) :
    get_demand_interpretation s =
      ("High", "High demand potential! Prioritize manufacturing and distribution in this region.") := by
  simp [get_demand_interpretation, h1, h2]

theorem C9_witness :
    get_demand_interpretation 0 =
      ("High", "High demand potential! Prioritize manufacturing and distribution in this region.") :=
  C9_interpretation_catch_all 0 (by decide) (by decide)

/-- Claim C10: the fallback demand score is monotone nondecreasing in the
flags: pointwise smaller inputs never get a larger score. -/
theorem C10_fallback_monotone (p q : TrainingProfile) (h : flagsLE p q) :
    demo_score p ≤ demo_score q := by
  obtain ⟨h1, h2, h3, h4, h5, h6⟩ := h
  have v1 : p.cognition.val ≤ q.cognition.val := h1
  have v2 : p.communication.val ≤ q.communication.val := h2
  have v3 : p.hearing.val ≤ q.hearing.val := h3
  have v4 : p.mobility.val ≤ q.mobility.val := h4
  have v5 : p.self_care.val ≤ q.self_care.val := h5
  have v6 : p.vision.val ≤ q.vision.val := h6
  have hsum : sumFlags p ≤ sumFlags q := by unfold sumFlags; omega
  unfold demo_score
  omega

theorem C10_witness : demo_score allZeros ≤ demo_score allOnes :=
  C10_fallback_monotone allZeros allOnes (by decide)

/-- Claim C4: a batch of more than 50 items is rejected whole with the
400-class error and nothing is predicted; a batch of at most 50 items
yields exactly one entry per input index, in input order, each entry
depending only on that item (a failing item produces an error entry at its
index without affecting siblings). -/
theorem C4_batch_contract (st : ModelState) (reqs : List TrainingProfile) :
    (reqs.length > 50 →
      predict_batch st reqs = Except.error "Batch size cannot exceed 50 requests") ∧
    (reqs.length ≤ 50 →
      ∃ out, predict_batch st reqs = Except.ok out ∧ out.length = reqs.length ∧
        ∀ i, i < reqs.length → ∀ r, reqs[i]? = some r →
          out[i]? = some (batchItem st i r)) := by
  constructor
  · intro h
    unfold predict_batch
    rw [if_pos h]
  · intro h
    refine ⟨reqs.enum.map (fun ir => batchItem st ir.1 ir.2), ?_, ?_, ?_⟩
    · unfold predict_batch
      rw [if_neg (by omega)]
    · simp
    · intro i hi r hr
      simp [List.getElem?_map, List.getElem?_enum, hr]

theorem C4_witness :
    predict_batch none (List.replicate 51 allOnes) =
      Except.error "Batch size cannot exceed 50 requests" ∧
    predict_batch none [allOnes] = Except.ok [batchItem none 0 allOnes] := by
  constructor
  · exact (C4_batch_contract none (List.replicate 51 allOnes)).1 (by simp)
  · obtain ⟨out, h1, h2, h3⟩ := (C4_batch_contract none [allOnes]).2 (by simp)
    have h0 := h3 0 (by simp) allOnes rfl
    rw [h1]
    congr 1
    match out, h2 with
    | [a], _ =>
      simp only [List.getElem?_cons_zero, Option.some.injEq] at h0
      rw [h0]

/-- Claim C6: the /predict response's input_summary reports the coverage
percentage round(100 * sum / 6, 1), the total number of training areas
set, and the vision and mobility flags. -/
theorem C6_input_summary (st : ModelState) (req : TrainingProfile)
    (r : PredictionResponse) (h : predict_demand st req = Except.ok r) :
    r.input_summary.training_coverage_percentage =
      pyRoundTo 1 (100 * (sumFlags req : ℚ) / 6) ∧
    r.input_summary.total_training_areas = sumFlags req ∧
    r.input_summary.vision_training_available = (req.vision.val != 0) ∧
    r.input_summary.mobility_training_available = (req.mobility.val != 0) := by
  have hsum : r.input_summary = input_summary req := by
    unfold predict_demand at h
    cases hp : predict_smart_glasses_demand st req with
    | ok sc =>
      rw [hp] at h
      simp only [Except.ok.injEq] at h
      rw [← h]
    | error e =>
      rw [hp] at h
      simp at h
  rw [hsum]
  refine ⟨?_, rfl, rfl, rfl⟩
  show pyRoundTo 1 (((sumFlags req : ℚ)) / 6 * 100) =
    pyRoundTo 1 (100 * (sumFlags req : ℚ) / 6)
  congr 1
  ring

theorem C6_witness :
    sample_response.input_summary.training_coverage_percentage =
      pyRoundTo 1 (100 * (sumFlags allOnes : ℚ) / 6) ∧
    sample_response.input_summary.total_training_areas = sumFlags allOnes ∧
    sample_response.input_summary.vision_training_available = (allOnes.vision.val != 0) ∧
    sample_response.input_summary.mobility_training_available = (allOnes.mobility.val != 0) :=
  C6_input_summary none allOnes sample_response (by
    unfold predict_demand predict_smart_glasses_demand
    norm_num [sample_response, input_summary, get_demand_interpretation,
      demo_score, sumFlags, allOnes, pyRoundTo, pyRound])

/-- Claim C7: a /predict body with any of the six fields missing or outside
the set 0, 1 is rejected with the fixed 422 validation error before the
predictor runs: the outcome is the same whatever the loaded-model state,
so no prediction is attempted. -/
theorem C7_validation_rejects (raw : RawRequest) (st st2 : ModelState)
    (h : validBinary raw.cognition = false ∨ validBinary raw.communication = false ∨
      validBinary raw.hearing = false ∨ validBinary raw.mobility = false ∨
      validBinary raw.self_care = false ∨ validBinary raw.vision = false) :
    predict_endpoint st raw = Except.error validationErrorDetail ∧
    predict_endpoint st raw = predict_endpoint st2 raw := by
  have hv : validateRequest raw = none := by
    unfold validateRequest
    rcases h with h | h | h | h | h | h <;> simp [h]
  constructor <;> simp [predict_endpoint, hv]

theorem C7_witness :
    predict_endpoint none bad_request = Except.error validationErrorDetail ∧
    predict_endpoint none bad_request = predict_endpoint constModel bad_request :=
  C7_validation_rejects bad_request none constModel (Or.inl rfl)

/-- Claim C8: /health returns a response for every loaded-model state
(errors from the self-test are caught, never propagated); when the
artifact is absent it reports demo_mode = true with a healthy status, and
its self-test is the fallback prediction on the all-ones input, which
yields score 3 and confidence 0.75. -/
theorem C8_health_check :
    (∀ st : ModelState,
      (∃ s c, health_check st = HealthResponse.healthy st.isSome st.isNone s c) ∨
      (∃ e, health_check st = HealthResponse.unhealthy e)) ∧
    health_check none = HealthResponse.healthy false true (demo_score allOnes) 0.75 ∧
    demo_score allOnes = 3 := by
  refine ⟨?_, ?_, by decide⟩
  · intro st
    unfold health_check
    cases hp : predict_smart_glasses_demand st allOnes with
    | ok sc =>
      left
      exact ⟨sc.1, pyRoundTo 3 sc.2, rfl⟩
    | error e =>
      right
      exact ⟨e, rfl⟩
  · show health_check none = HealthResponse.healthy false true (demo_score allOnes) 0.75
    unfold health_check predict_smart_glasses_demand
    norm_num [pyRoundTo, pyRound]

end SmartGlasses
